import Mathlib

/-
  Verification of the blender-mcp command bridge.

  Shallow embedding of the two source files:
  - blender_mcp_addon.py  (socket server addon running inside Blender)
  - blender-mcp-server.py (MCP-side bridge client)

  JSON documents are modelled by the inductive type JVal; json.loads is
  modelled by jparse (a recursive-descent parser over the JSON subset the
  bridge exchanges: null, booleans, integers, strings with simple escapes,
  arrays, objects; floats and unicode escapes are outside the model) and
  json.dumps by jdump (default CPython separators).  Python dicts are
  association lists with string keys; raised exceptions are Except.error
  carrying str(e).
-/

namespace BlenderMCP

/-- JSON values exchanged over the bridge. Numbers are modelled as integers
(the protocol messages relevant to the bridge core use only integers). -/
inductive JVal where
  | null
  | bool (b : Bool)
  | num (n : Int)
  | str (s : String)
  | arr (elems : List JVal)
  | obj (fields : List (String × JVal))
deriving Repr

/-- dict.get(k): first binding of key k in an association list (JSON objects
produced by the bridge have unique keys). -/
def dget (d : List (String × JVal)) (k : String) : Option JVal :=
  (d.find? (fun p => p.1 == k)).map (fun p => p.2)

/-- The success Response Envelope literal built in execute_command:
`{"status": "success", "result": result}`. -/
def successResponse (result : JVal) : JVal :=
  JVal.obj [("status", JVal.str "success"), ("result", result)]

/-- The error Response Envelope literal built in execute_command and
execute_wrapper: `{"status": "error", "message": str(e)}`. -/
def errorResponse (msg : String) : JVal :=
  JVal.obj [("status", JVal.str "error"), ("message", JVal.str msg)]

/-- The "status" field of a response document (none when the document is not
an object). -/
def statusOf : JVal → Option JVal
  | JVal.obj d => dget d "status"
  | _ => none

/- ---------------- json.loads model (recursive-descent, fueled) ------------- -/

def lbrace : Char := Char.ofNat 123

def rbrace : Char := Char.ofNat 125

def isWsChar (c : Char) : Bool :=
  c = ' ' || c = '\t' || c = '\n' || c = '\r'

def skipWs : List Char → List Char
  | [] => []
  | c :: rest => if isWsChar c then skipWs rest else c :: rest

def isDigitChar (c : Char) : Bool :=
  '0' ≤ c && c ≤ '9'

def takeDigits : List Char → List Char × List Char
  | [] => ([], [])
  | c :: rest =>
    if isDigitChar c then
      let p := takeDigits rest
      (c :: p.1, p.2)
    else ([], c :: rest)

def digitsVal (ds : List Char) : Nat :=
  ds.foldl (fun a c => a * 10 + (c.toNat - 48)) 0

def parseNum : List Char → Option (Int × List Char)
  | '-' :: rest =>
    match takeDigits rest with
    | ([], _) => none
    | (ds, r) => some (-(digitsVal ds : Int), r)
  | cs =>
    match takeDigits cs with
    | ([], _) => none
    | (ds, r) => some ((digitsVal ds : Int), r)

/-- Body of a JSON string literal, after the opening quote: returns the
decoded characters and the remainder after the closing quote. -/
def parseStrChars : List Char → Option (List Char × List Char)
  | [] => none
  | '"' :: rest => some ([], rest)
  | '\\' :: e :: rest =>
    let esc : Option Char :=
      if e = '"' then some '"'
      else if e = '\\' then some '\\'
      else if e = '/' then some '/'
      else if e = 'n' then some '\n'
      else if e = 't' then some '\t'
      else if e = 'r' then some '\r'
      else if e = 'b' then some (Char.ofNat 8)
      else if e = 'f' then some (Char.ofNat 12)
      else none
    match esc with
    | some ch => (parseStrChars rest).map (fun p => (ch :: p.1, p.2))
    | none => none
  | c :: rest => (parseStrChars rest).map (fun p => (c :: p.1, p.2))

mutual

def parseVal : Nat → List Char → Option (JVal × List Char)
  | 0, _ => none
  | fuel + 1, cs =>
    match skipWs cs with
    | [] => none
    | c :: rest =>
      if c = '"' then
        (parseStrChars rest).map (fun p => (JVal.str (String.mk p.1), p.2))
      else if c = lbrace then parseObjFields fuel (skipWs rest) []
      else if c = '[' then parseArrElems fuel (skipWs rest) []
      else
        match c :: rest with
        | 'n' :: 'u' :: 'l' :: 'l' :: r => some (JVal.null, r)
        | 't' :: 'r' :: 'u' :: 'e' :: r => some (JVal.bool true, r)
        | 'f' :: 'a' :: 'l' :: 's' :: 'e' :: r => some (JVal.bool false, r)
        | cs2 => (parseNum cs2).map (fun p => (JVal.num p.1, p.2))

def parseArrElems : Nat → List Char → List JVal → Option (JVal × List Char)
  | 0, _, _ => none
  | fuel + 1, cs, acc =>
    match skipWs cs with
    | [] => none
    | c :: rest =>
      if c = ']' && acc.isEmpty then some (JVal.arr [], rest)
      else
        match parseVal fuel (c :: rest) with
        | none => none
        | some (v, r) =>
          match skipWs r with
          | [] => none
          | ',' :: r2 => parseArrElems fuel r2 (acc ++ [v])
          | c2 :: r2 => if c2 = ']' then some (JVal.arr (acc ++ [v]), r2) else none

def parseObjFields : Nat → List Char → List (String × JVal) →
    Option (JVal × List Char)
  | 0, _, _ => none
  | fuel + 1, cs, acc =>
    match skipWs cs with
    | [] => none
    | c :: rest =>
      if c = rbrace && acc.isEmpty then some (JVal.obj [], rest)
      else if c = '"' then
        match parseStrChars rest with
        | none => none
        | some (key, r) =>
          match skipWs r with
          | ':' :: r2 =>
            match parseVal fuel r2 with
            | none => none
            | some (v, r3) =>
              match skipWs r3 with
              | [] => none
              | ',' :: r4 => parseObjFields fuel r4 (acc ++ [(String.mk key, v)])
              | c2 :: r4 =>
                if c2 = rbrace then
                  some (JVal.obj (acc ++ [(String.mk key, v)]), r4)
                else none
          | _ => none
      else none

end

/-- json.loads: the whole string must be a single document, optionally
surrounded by whitespace; anything else raises json.JSONDecodeError,
modelled as none. -/
def jparse (s : String) : Option JVal :=
  match parseVal (s.length + 1) s.toList with
  | some (v, rest) => if (skipWs rest).isEmpty then some v else none
  | none => none

/- ---------------- json.dumps model ------------- -/

def escapeChar (c : Char) : List Char :=
  if c = '"' then ['\\', '"']
  else if c = '\\' then ['\\', '\\']
  else [c]

def escapeJson (s : String) : String :=
  String.mk (s.toList.foldr (fun c acc => escapeChar c ++ acc) [])

def lbraceStr : String := String.mk [lbrace]

def rbraceStr : String := String.mk [rbrace]

mutual

/-- json.dumps with CPython default separators (", " and ": "). -/
def jdump : JVal → String
  | JVal.null => "null"
  | JVal.bool true => "true"
  | JVal.bool false => "false"
  | JVal.num n => toString n
  | JVal.str s => "\"" ++ escapeJson s ++ "\""
  | JVal.arr xs => "[" ++ jdumpElems xs ++ "]"
  | JVal.obj fs => lbraceStr ++ jdumpFields fs ++ rbraceStr

def jdumpElems : List JVal → String
  | [] => ""
  | [x] => jdump x
  | x :: y :: rest => jdump x ++ ", " ++ jdumpElems (y :: rest)

def jdumpFields : List (String × JVal) → String
  | [] => ""
  | [(k, v)] => "\"" ++ escapeJson k ++ "\": " ++ jdump v
  | (k, v) :: f :: rest =>
    "\"" ++ escapeJson k ++ "\": " ++ jdump v ++ ", " ++ jdumpFields (f :: rest)

end

/- ================= blender_mcp_addon.py : BlenderMCPServer ================= -/

/-- The command names bound in the handlers dict literal of
BlenderMCPServer.execute_command (blender_mcp_addon.py, lines 176-189). -/
def registeredCommands : List String :=
  ["get_scene_info", "get_object_info", "get_viewport_screenshot",
   "execute_code", "get_asset_libraries", "list_assets", "append_asset",
   "get_modifiers", "add_modifier", "remove_modifier", "apply_modifier",
   "set_geometry_nodes_input"]

/-- A handler implementation: the bound method invoked as handler(**params),
indexed by command name.  The domain bodies (scene queries, modifiers,
assets) are opaque to the bridge; Except.error m models the handler raising
an exception with str(e) = m (including keyword-binding TypeErrors),
Except.ok v its return value. -/
def HandlerImpl : Type :=
  String → List (String × JVal) → Except String JVal

/-- Python f-string rendering of the cmd_type value interpolated into the
"Unknown command" message.  JSON null parses to Python None; the arr/obj
cases are unreachable in that message because dict lookup on an unhashable
key raises first. -/
def pyStr : Option JVal → String
  | none => "None"
  | some JVal.null => "None"
  | some (JVal.bool true) => "True"
  | some (JVal.bool false) => "False"
  | some (JVal.num n) => toString n
  | some (JVal.str s) => s
  | some (JVal.arr _) => "[]"
  | some (JVal.obj _) => "dict"

/-- Python type name of a JSON-decoded value, used inside the runtime
TypeError/AttributeError messages (CPython additionally quotes these names;
the surrounding text is modelled without the quote characters, which no
claim depends on). -/
def pyTypeName : JVal → String
  | JVal.null => "NoneType"
  | JVal.bool _ => "bool"
  | JVal.num _ => "int"
  | JVal.str _ => "str"
  | JVal.arr _ => "list"
  | JVal.obj _ => "dict"

/-- str(e) of the AttributeError raised by command.get(...) when the decoded
command document is not a dict. -/
def noAttrGetMsg (v : JVal) : String :=
  pyTypeName v ++ " object has no attribute get"

/-- str(e) of the TypeError raised by handlers.get(cmd_type) when cmd_type is
an unhashable decoded value (a list or a dict). -/
def unhashableMsg (v : JVal) : String :=
  "unhashable type: " ++ pyTypeName v

/-- str(e) of the TypeError raised by handler(**params) when params is not a
mapping. -/
def kwargsNotMappingMsg (v : JVal) : String :=
  "argument after ** must be a mapping, not " ++ pyTypeName v

/-- The body of the try-block of BlenderMCPServer.execute_command
(blender_mcp_addon.py, lines 172-196).  Except.error m models an exception
with str(e) = m escaping the try-block; Except.ok r models the return of
response dict r (note the unknown-command branch RETURNS an error envelope
rather than raising). -/
def execute_command_try (impl : HandlerImpl) (command : JVal) :
    Except String JVal :=
  match command with
  | JVal.obj d =>
    match dget d "type" with
    | some (JVal.arr xs) => Except.error (unhashableMsg (JVal.arr xs))
    | some (JVal.obj fs) => Except.error (unhashableMsg (JVal.obj fs))
    | some (JVal.str s) =>
      if s ∈ registeredCommands then
        match (dget d "params").getD (JVal.obj []) with
        | JVal.obj p =>
          match impl s p with
          | Except.ok result => Except.ok (successResponse result)
          | Except.error msg => Except.error msg
        | v => Except.error (kwargsNotMappingMsg v)
      else Except.ok (errorResponse ("Unknown command: " ++ s))
    | other => Except.ok (errorResponse ("Unknown command: " ++ pyStr other))
  | v => Except.error (noAttrGetMsg v)

/-- BlenderMCPServer.execute_command (blender_mcp_addon.py, lines 170-201):
the try-block result, with every escaping exception converted by the
except-clause into an error Response Envelope carrying str(e). -/
def execute_command (impl : HandlerImpl) (command : JVal) : JVal :=
  match execute_command_try impl command with
  | Except.ok r => r
  | Except.error e => errorResponse e

/-- execute_wrapper (blender_mcp_addon.py, lines 137-156), the callback that
bpy.app.timers.register schedules on Blender's main thread: returns the
list of Response Envelopes whose serialization is written (attempted) on
the client socket.  dumps models json.dumps on the response dict; when it
raises (Except.error), the except-clause sends the error envelope instead.
client.sendall failures are swallowed by the inner try and do not add or
remove write attempts. -/
def execute_wrapper (impl : HandlerImpl) (dumps : JVal → Except String String)
    (command : JVal) : List JVal :=
  match dumps (execute_command impl command) with
  | Except.ok _ => [execute_command impl command]
  | Except.error e => [errorResponse e]

/- ---------------- _handle_client (framing loop) ------------- -/

/-- One outcome of client.recv(8192) on the connection thread:
a nonempty chunk of bytes (modelled as text), the peer closing
(recv returns b''), or recv raising. -/
inductive RecvEvent where
  | data (chunk : String)
  | closed
  | errored
deriving Repr

/-- The while-loop of BlenderMCPServer._handle_client (blender_mcp_addon.py,
lines 125-163), returning the list of commands submitted to
bpy.app.timers.register, in order.  After json.loads succeeds the buffer is
reset and the loop continues reading; on json.JSONDecodeError the chunk
stays buffered; recv returning empty or raising breaks the loop.  An
exhausted event list models the running flag being cleared. -/
def handleClientLoop : String → List RecvEvent → List JVal
  | _, [] => []
  | _, RecvEvent.closed :: _ => []
  | _, RecvEvent.errored :: _ => []
  | buf, RecvEvent.data c :: rest =>
    match jparse (buf ++ c) with
    | some cmd => cmd :: handleClientLoop "" rest
    | none => handleClientLoop (buf ++ c) rest

/-- BlenderMCPServer._handle_client (blender_mcp_addon.py, lines 119-168):
the submitted commands, paired with the fact that the finally-clause closes
the client socket on every path (the Bool is the close). -/
def handleClient (events : List RecvEvent) : List JVal × Bool :=
  (handleClientLoop "" events, true)

/-- The successive buffer contents against which json.loads is attempted
while no document has parsed yet, starting from buffer buf. -/
def accumBuffers (buf : String) : List String → List String
  | [] => []
  | c :: rest => (buf ++ c) :: accumBuffers (buf ++ c) rest

/- ---------------- start / stop lifecycle ------------- -/

/-- The process-wide server state touched by start/stop: the running flag,
whether the listening socket is bound, and whether the accept-loop thread
handle is set (blender_mcp_addon.py, lines 38-43). -/
structure ServerState where
  running : Bool
  sock : Bool
  serverThread : Bool
deriving Repr, DecidableEq

def initialState : ServerState :=
  { running := false, sock := false, serverThread := false }

/-- BlenderMCPServer.stop (lines 69-89): clears running, closes and drops the
socket if present (close failures swallowed), joins and drops the thread if
present. -/
def stop (_s : ServerState) : ServerState :=
  { running := false, sock := false, serverThread := false }

/-- BlenderMCPServer.start (lines 45-67): returns unchanged when already
running; otherwise sets running, then tries to bind/listen and spawn the
accept thread; bindOk models whether that try-block succeeds, and on
failure the except-clause calls stop(). -/
def start (bindOk : Bool) (s : ServerState) : ServerState :=
  if s.running then s
  else if bindOk then { running := true, sock := true, serverThread := true }
  else stop { running := true, sock := false, serverThread := false }

/-- States reachable from module load through any sequence of start/stop
calls. -/
inductive Reachable : ServerState → Prop where
  | init : Reachable initialState
  | startStep {s : ServerState} (b : Bool) : Reachable s → Reachable (start b s)
  | stopStep {s : ServerState} : Reachable s → Reachable (stop s)

/- ---------------- port preference property ------------- -/

/-- The IntProperty descriptor registered as Scene.blendermcp_port
(blender_mcp_addon.py, lines 786-792). -/
structure IntPropertySpec where
  default : Int
  min : Int
  max : Int
deriving Repr, DecidableEq

def blendermcp_port : IntPropertySpec :=
  { default := 9876, min := 1024, max := 65535 }

/-- A port value is configurable when it lies within the property's
min/max bounds (Blender clamps assignments to this range). -/
def portConfigurable (v : Int) : Bool :=
  blendermcp_port.min ≤ v && v ≤ blendermcp_port.max

/- ================= blender-mcp-server.py : bridge client ================= -/

/-- One recv outcome observed by _send_command_sync after the command has
been sent: a chunk of response bytes, the peer closing (recv returns b''),
a socket timeout, or a connection reset. -/
inductive CommEvent where
  | chunk (s : String)
  | closedEv
  | timeoutEv
  | resetEv
deriving Repr

/-- str(e) of the socket.timeout raised by recv after settimeout(30.0). -/
def timeoutMsg : String := "timed out"

/-- str(e) of a ConnectionResetError raised by recv. -/
def connResetMsg : String := "[Errno 104] Connection reset by peer"

/-- The recv/parse loop of _send_command_sync (blender-mcp-server.py, lines
713-723): accumulate chunks, break on an empty read or as soon as the
accumulated data parses; json.JSONDecodeError continues the loop; a raising
recv propagates (Except.error).  Returns the accumulated response bytes. -/
def recvAccum : List CommEvent → String → Except String String
  | [], buf => Except.ok buf
  | CommEvent.closedEv :: _, buf => Except.ok buf
  | CommEvent.timeoutEv :: _, _ => Except.error timeoutMsg
  | CommEvent.resetEv :: _, _ => Except.error connResetMsg
  | CommEvent.chunk c :: rest, buf =>
    if (jparse (buf ++ c)).isSome then Except.ok (buf ++ c)
    else recvAccum rest (buf ++ c)

/-- response.get("status") == "error" (Python equality: false for any
non-string status, including a missing key). -/
def isErrorStatus (d : List (String × JVal)) : Bool :=
  match dget d "status" with
  | some (JVal.str s) => s == "error"
  | _ => false

/-- Exception(response.get("message", "Unknown error")): the message of the
raised application-level failure, rendered by str(). -/
def envelopeMessage (d : List (String × JVal)) : String :=
  match dget d "message" with
  | some (JVal.str m) => m
  | some v => pyStr (some v)
  | none => "Unknown error"

/-- The try-block of _send_command_sync (blender-mcp-server.py, lines
704-737) from the first recv on: Except.error m models an exception with
str(e) = m escaping the try-block, Except.ok v the returned result value. -/
def sendCommandSyncTry (events : List CommEvent) : Except String JVal :=
  match recvAccum events "" with
  | Except.error e => Except.error e
  | Except.ok responseData =>
    if responseData = "" then
      Except.error "Connection closed without response"
    else
      match jparse responseData with
      | none => Except.error ("Invalid JSON response: " ++ responseData.take 200)
      | some resp =>
        match resp with
        | JVal.obj d =>
          if isErrorStatus d then Except.error (envelopeMessage d)
          else Except.ok ((dget d "result").getD (JVal.obj []))
        | v => Except.error (noAttrGetMsg v)

/-- The wrapper every escaping exception receives in the outer
except-clause of _send_command_sync (line 739). -/
def commWrap (inner : String) : String :=
  "Failed to communicate with Blender: " ++ inner

/-- BlenderMCPServer._send_command_sync (blender-mcp-server.py, lines
700-741), given the sequence of recv outcomes for the call: Except.ok v is
the value returned to the caller, Except.error m the message of the raised
Exception.  The outer except-clause rewraps EVERY failure - transport and
application alike - with the communication prefix. -/
def sendCommandSync (events : List CommEvent) : Except String JVal :=
  match sendCommandSyncTry events with
  | Except.ok v => Except.ok v
  | Except.error e => Except.error (commWrap e)

/- ================= concrete fixtures used by witnesses ================= -/

/-- A minimal well-formed Command Envelope (its type is not registered, which
only matters where stated). -/
def pingDoc : JVal :=
  JVal.obj [("type", JVal.str "ping"), ("params", JVal.obj [])]

/-- A handler assignment where every command returns null. -/
def implNull : HandlerImpl := fun _ _ => Except.ok JVal.null

/-- A handler assignment where every command raises a domain error. -/
def implBoom : HandlerImpl := fun _ _ => Except.error "Object not found: Cube"

/-- json.dumps succeeding on every response (the envelopes built by the
dispatch layer are always serializable). -/
def dumpsOk : JVal → Except String String := fun v => Except.ok (jdump v)

/- ================= helper lemmas ================= -/

theorem jparse_empty : jparse "" = none := rfl

theorem dget_cons (a : String) (b : JVal) (rest : List (String × JVal))
    (k : String) :
    dget ((a, b) :: rest) k = if a == k then some b else dget rest k := by
  by_cases h : a == k <;> simp [dget, List.find?_cons, h]

theorem dget_append_none (d₁ d₂ : List (String × JVal)) (k : String)
    (h : dget d₁ k = none) : dget (d₁ ++ d₂) k = dget d₂ k := by
  induction d₁ with
  | nil => rfl
  | cons p rest ih =>
    obtain ⟨a, b⟩ := p
    rw [dget_cons] at h
    rw [List.cons_append, dget_cons]
    by_cases hp : (a == k) = true
    · rw [if_pos hp] at h; simp at h
    · rw [if_neg hp] at h ⊢; exact ih h

theorem dget_append_some (d₁ d₂ : List (String × JVal)) (k : String) (v : JVal)
    (h : dget d₁ k = some v) : dget (d₁ ++ d₂) k = some v := by
  induction d₁ with
  | nil => simp [dget] at h
  | cons p rest ih =>
    obtain ⟨a, b⟩ := p
    rw [dget_cons] at h
    rw [List.cons_append, dget_cons]
    by_cases hp : (a == k) = true
    · rw [if_pos hp] at h ⊢; exact h
    · rw [if_neg hp] at h ⊢; exact ih h

/-- Every exit of the execute_command try-block is a success envelope, an
error envelope, or a raised exception. -/
theorem execute_command_try_shape (impl : HandlerImpl) (c : JVal) :
    (∃ v, execute_command_try impl c = Except.ok (successResponse v)) ∨
    (∃ m, execute_command_try impl c = Except.ok (errorResponse m)) ∨
    (∃ e, execute_command_try impl c = Except.error e) := by
  unfold execute_command_try
  repeat' split
  all_goals first
    | exact Or.inl ⟨_, rfl⟩
    | exact Or.inr (Or.inl ⟨_, rfl⟩)
    | exact Or.inr (Or.inr ⟨_, rfl⟩)

/-- execute_command always returns one of the two envelope shapes. -/
theorem execute_command_envelope (impl : HandlerImpl) (c : JVal) :
    (∃ v, execute_command impl c = successResponse v) ∨
    (∃ m, execute_command impl c = errorResponse m) := by
  rcases execute_command_try_shape impl c with ⟨v, h⟩ | ⟨m, h⟩ | ⟨e, h⟩
  · exact Or.inl ⟨v, by unfold execute_command; rw [h]⟩
  · exact Or.inr ⟨m, by unfold execute_command; rw [h]⟩
  · exact Or.inr ⟨e, by unfold execute_command; rw [h]⟩

/-- The status field of every execute_command result is "success" or
"error". -/
theorem execute_command_status (impl : HandlerImpl) (c : JVal) :
    statusOf (execute_command impl c) = some (JVal.str "success") ∨
    statusOf (execute_command impl c) = some (JVal.str "error") := by
  rcases execute_command_envelope impl c with ⟨v, h⟩ | ⟨m, h⟩ <;> rw [h]
  · exact Or.inl rfl
  · exact Or.inr rfl

/-- When every chunk of the stream is by itself a complete document, the
connection loop submits one command per chunk. -/
theorem loop_all_parse (cs : List String)
    (h : ∀ c ∈ cs, (jparse c).isSome = true) :
    handleClientLoop "" (cs.map RecvEvent.data) = cs.filterMap jparse := by
  induction cs with
  | nil => rfl
  | cons c rest ih =>
    have hc : (jparse c).isSome = true := h c (by simp)
    obtain ⟨v, hv⟩ := Option.isSome_iff_exists.mp hc
    have e : ("" ++ c : String) = c := rfl
    simp only [List.map_cons, handleClientLoop, e, hv, List.filterMap_cons]
    rw [ih (fun x hx => h x (by simp [hx]))]

/-- When no accumulated buffer ever parses, the connection loop submits
nothing. -/
theorem loop_no_parse (cs : List String) (buf : String)
    (h : ∀ b ∈ accumBuffers buf cs, jparse b = none) :
    handleClientLoop buf (cs.map RecvEvent.data ++ [RecvEvent.closed]) = [] := by
  induction cs generalizing buf with
  | nil => rfl
  | cons c rest ih =>
    have h0 : jparse (buf ++ c) = none := h _ (by simp [accumBuffers])
    simp only [List.map_cons, List.cons_append, handleClientLoop, h0]
    exact ih (buf ++ c) (fun b hb => h b (by simp [accumBuffers, hb]))

/-- Every reachable state with the running flag cleared is the fully
torn-down state. -/
theorem reachable_not_running (s : ServerState) (hr : Reachable s)
    (h : s.running = false) : s = initialState := by
  induction hr with
  | init => rfl
  | startStep b hr ih =>
    rename_i s'
    by_cases hs : s'.running = true
    · unfold start at h ⊢
      rw [if_pos hs] at h ⊢
      rw [hs] at h
      simp at h
    · unfold start at h ⊢
      rw [if_neg hs] at h ⊢
      cases b with
      | true => simp at h
      | false => rfl
  | stopStep hr ih => rfl

/- ================= claim theorems ================= -/

/-- Claim C1, counterexample: the claim states that once the accumulated
bytes parse as one complete document, the handler reads no further data and
the connection never carries more than one command.  The loop in
_handle_client has no break after a successful parse: a client that sends a
second complete document on the same connection gets a second command
submitted, so the submitted-command count is 2, refuting the bound of 1. -/
theorem c1_counterexample :
    (handleClient [RecvEvent.data (jdump pingDoc),
                   RecvEvent.data (jdump pingDoc)]).1 = [pingDoc, pingDoc] ∧
    ¬ (∀ events : List RecvEvent, (handleClient events).1.length ≤ 1) := by
  refine ⟨rfl, ?_⟩
  intro h
  have h2 := h [RecvEvent.data (jdump pingDoc), RecvEvent.data (jdump pingDoc)]
  have h3 : (handleClient [RecvEvent.data (jdump pingDoc),
      RecvEvent.data (jdump pingDoc)]).1.length = 2 := rfl
  omega

/-- Claim C1, amended: when a complete document parses, the handler submits
it and clears the buffer but keeps reading; each further complete document
on the same connection is also submitted (one submission per framed
document), and the finally-clause still closes the socket.  The
single-command-per-connection discipline is maintained only by the client
opening a fresh connection per call, not enforced by the server. -/
theorem c1_amended_framing (cs : List String)
    (h : ∀ c ∈ cs, (jparse c).isSome = true) :
    (handleClient (cs.map RecvEvent.data)).1 = cs.filterMap jparse ∧
    (handleClient (cs.map RecvEvent.data)).2 = true :=
  ⟨loop_all_parse cs h, rfl⟩

/-- Claim C1, amended, witness at a one-document stream. -/
theorem c1_amended_framing_witness :
    (handleClient ([jdump pingDoc].map RecvEvent.data)).1 = [pingDoc] := by
  have h := (c1_amended_framing [jdump pingDoc]
    (by intro c hc; rw [List.mem_singleton] at hc; rw [hc]; rfl)).1
  rw [h]
  rfl

/-- Claim C2, counterexample: the outer except-clause of _send_command_sync
rewraps every failure in Exception("Failed to communicate with Blender: "
+ str(e)).  An application-level error envelope with message "timed out"
produces the very same raised failure as a genuine socket timeout, so the
two classes are not distinguishable; and the failure raised for a valid
error envelope carries the prefixed text, not exactly the envelope's
message. -/
theorem c2_counterexample :
    sendCommandSync [CommEvent.chunk (jdump (errorResponse "timed out"))] =
      sendCommandSync [CommEvent.timeoutEv] ∧
    sendCommandSync [CommEvent.chunk (jdump (errorResponse "boom"))] =
      Except.error "Failed to communicate with Blender: boom" ∧
    sendCommandSync [CommEvent.chunk (jdump (errorResponse "boom"))] ≠
      Except.error "boom" := by
  refine ⟨rfl, rfl, ?_⟩
  intro h
  have h2 : ("Failed to communicate with Blender: boom" : String) = "boom" := by
    have h3 : sendCommandSync [CommEvent.chunk (jdump (errorResponse "boom"))] =
        Except.error "Failed to communicate with Blender: boom" := rfl
    rw [h3] at h
    exact Except.error.inj h
  exact absurd h2 (by decide)

/-- Claim C2, amended: a timeout, a connection closing with no data, an
application error envelope and a success envelope each produce a definite
outcome, but every failure - transport or application - is raised wrapped
in the same "Failed to communicate with Blender: " prefix, so the classes
are distinguishable only by message text; on a valid error envelope the
raised failure carries the envelope's message after that prefix, and on any
other status the result value is returned (defaulting to an empty object
when absent). -/
theorem c2_amended_client_failures (d : List (String × JVal)) (s m : String)
    (hs : jparse s = some (JVal.obj d)) :
    sendCommandSync [CommEvent.timeoutEv] = Except.error (commWrap timeoutMsg) ∧
    sendCommandSync [CommEvent.closedEv] =
      Except.error (commWrap "Connection closed without response") ∧
    (isErrorStatus d = true → dget d "message" = some (JVal.str m) →
      sendCommandSync [CommEvent.chunk s] = Except.error (commWrap m)) ∧
    (isErrorStatus d = false →
      sendCommandSync [CommEvent.chunk s] =
        Except.ok ((dget d "result").getD (JVal.obj []))) := by
  have hne : s ≠ "" := by
    intro h0
    rw [h0, jparse_empty] at hs
    cases hs
  have he : ("" ++ s : String) = s := rfl
  refine ⟨rfl, rfl, ?_, ?_⟩
  · intro herr hmsg
    unfold sendCommandSync sendCommandSyncTry recvAccum
    rw [he, hs]
    simp only [Option.isSome_some, if_true, if_neg hne, hs]
    rw [if_pos herr]
    unfold envelopeMessage
    rw [hmsg]
  · intro hok
    unfold sendCommandSync sendCommandSyncTry recvAccum
    rw [he, hs]
    simp only [Option.isSome_some, if_true, if_neg hne, hs]
    rw [if_neg (by rw [hok]; exact Bool.false_ne_true)]

/-- Claim C2, amended, witness at a concrete error envelope. -/
theorem c2_amended_client_failures_witness :
    sendCommandSync [CommEvent.chunk (jdump (errorResponse "oops"))] =
      Except.error (commWrap "oops") :=
  (c2_amended_client_failures
      [("status", JVal.str "error"), ("message", JVal.str "oops")]
      (jdump (errorResponse "oops")) "oops" rfl).2.2.1 rfl rfl

/-- Claim C4: when a registered command's handler raises (any exception,
including domain errors), the except-clause of execute_command converts it
into an error Response Envelope carrying exactly the failure's message;
nothing propagates out of dispatch (execute_command is a total function
into envelopes, and being pure, its result on one command cannot affect
another). -/
theorem c4_dispatch_contains_handler_failures (impl : HandlerImpl)
    (d p : List (String × JVal)) (s msg : String)
    (ht : dget d "type" = some (JVal.str s))
    (hreg : s ∈ registeredCommands)
    (hp : dget d "params" = some (JVal.obj p))
    (hfail : impl s p = Except.error msg) :
    execute_command impl (JVal.obj d) = errorResponse msg := by
  unfold execute_command execute_command_try
  dsimp only
  rw [ht, hp]
  simp [hreg, hfail]

/-- Claim C4, witness: a handler raising "Object not found: Cube". -/
theorem c4_dispatch_contains_handler_failures_witness :
    execute_command implBoom
      (JVal.obj [("type", JVal.str "get_object_info"),
                 ("params", JVal.obj [("name", JVal.str "Cube")])]) =
      errorResponse "Object not found: Cube" :=
  c4_dispatch_contains_handler_failures implBoom
    [("type", JVal.str "get_object_info"),
     ("params", JVal.obj [("name", JVal.str "Cube")])]
    [("name", JVal.str "Cube")] "get_object_info" "Object not found: Cube"
    rfl (by decide) rfl rfl

/-- Claim C5: for a well-formed Command Envelope addressed to a registered
command, execute_wrapper attempts exactly one response write, and the
envelope written has status "success" or "error" and nothing else - never
zero and never multiple replies. -/
theorem c5_exactly_one_response (impl : HandlerImpl)
    (dumps : JVal → Except String String)
    (d p : List (String × JVal)) (s : String)
    ( _ht : dget d "type" = some (JVal.str s))
    ( _hreg : s ∈ registeredCommands)
    ( _hp : dget d "params" = some (JVal.obj p)) :
    (execute_wrapper impl dumps (JVal.obj d)).length = 1 ∧
    ∀ r ∈ execute_wrapper impl dumps (JVal.obj d),
      statusOf r = some (JVal.str "success") ∨
      statusOf r = some (JVal.str "error") := by
  unfold execute_wrapper
  cases hd : dumps (execute_command impl (JVal.obj d)) with
  | ok out =>
    refine ⟨rfl, ?_⟩
    intro r hr
    rw [List.mem_singleton] at hr
    rw [hr]
    exact execute_command_status impl (JVal.obj d)
  | error e =>
    refine ⟨rfl, ?_⟩
    intro r hr
    rw [List.mem_singleton] at hr
    rw [hr]
    exact Or.inr rfl

/-- Claim C5, witness at a concrete get_scene_info envelope. -/
theorem c5_exactly_one_response_witness :
    (execute_wrapper implNull dumpsOk
      (JVal.obj [("type", JVal.str "get_scene_info"),
                 ("params", JVal.obj [])])).length = 1 :=
  (c5_exactly_one_response implNull dumpsOk
    [("type", JVal.str "get_scene_info"), ("params", JVal.obj [])]
    [] "get_scene_info" rfl (by decide) rfl).1

/-- Claim C6: dispatching an unregistered command name returns an error
Response Envelope whose message names the unknown type, and no handler is
executed - the result does not depend on the handler assignment at all. -/
theorem c6_unknown_command_error (impl impl2 : HandlerImpl)
    (d : List (String × JVal)) (s : String)
    (ht : dget d "type" = some (JVal.str s))
    (hreg : s ∉ registeredCommands) :
    execute_command impl (JVal.obj d) =
      errorResponse ("Unknown command: " ++ s) ∧
    execute_command impl (JVal.obj d) = execute_command impl2 (JVal.obj d) := by
  unfold execute_command execute_command_try
  dsimp only
  rw [ht]
  simp [hreg]

/-- Claim C6, witness at the unregistered name "frobnicate". -/
theorem c6_unknown_command_error_witness :
    execute_command implNull
      (JVal.obj [("type", JVal.str "frobnicate"), ("params", JVal.obj [])]) =
      errorResponse "Unknown command: frobnicate" :=
  (c6_unknown_command_error implNull implBoom
    [("type", JVal.str "frobnicate"), ("params", JVal.obj [])]
    "frobnicate" rfl (by decide)).1

/-- Claim C7: a connection whose byte stream never parses as a valid JSON
document before the peer closes submits no command (hence no handler runs
and no response is sent), and the finally-clause closes the connection. -/
theorem c7_unparsed_stream_discarded (cs : List String)
    ( _hne : ∀ c ∈ cs, c ≠ "")
    (h : ∀ b ∈ accumBuffers "" cs, jparse b = none) :
    handleClient (cs.map RecvEvent.data ++ [RecvEvent.closed]) = ([], true) := by
  unfold handleClient
  rw [loop_no_parse cs "" h]

/-- Claim C7, witness at the never-parsing stream "hel", "lo". -/
theorem c7_unparsed_stream_discarded_witness :
    handleClient ([ "hel", "lo" ].map RecvEvent.data ++ [RecvEvent.closed]) =
      ([], true) :=
  c7_unparsed_stream_discarded ["hel", "lo"] (by decide)
    (by
      intro b hb
      simp [accumBuffers] at hb
      rcases hb with h1 | h1 <;> rw [h1] <;> rfl)

/-- Claim C8: start on a running server returns the state unchanged; stop on
a (reachable) non-running server returns the state unchanged; and after
stop the listening socket is closed, so the port is no longer bound. -/
theorem c8_lifecycle_idempotent (s : ServerState) (hr : Reachable s) :
    (s.running = true → ∀ b, start b s = s) ∧
    (s.running = false → stop s = s) ∧
    (stop s).sock = false := by
  refine ⟨?_, ?_, rfl⟩
  · intro h b
    unfold start
    rw [if_pos h]
  · intro h
    rw [reachable_not_running s hr h]
    rfl

/-- Claim C8, witness: stop is a no-op on the initial (stopped) state, and a
second start is a no-op on a started server. -/
theorem c8_lifecycle_idempotent_witness :
    stop initialState = initialState ∧
    start false (start true initialState) = start true initialState :=
  ⟨(c8_lifecycle_idempotent initialState Reachable.init).2.1 rfl,
   (c8_lifecycle_idempotent (start true initialState)
      (Reachable.startStep true Reachable.init)).1 rfl false⟩

/-- Claim C9, counterexample: the IntProperty registered for the port is
bounded 1024..65535, not 1024..49151: the value 50000 is configurable yet
lies outside the registered-port range the claim asserts. -/
theorem c9_counterexample :
    portConfigurable 50000 = true ∧ ¬ ((50000 : Int) ≤ 49151) := by
  constructor
  · rfl
  · decide

/-- Claim C9, amended: the port property defaults to 9876 and admits exactly
the values 1024 through 65535 (privileged ports excluded, but the
dynamic/private range above 49151 included). -/
theorem c9_amended_port_bounds (v : Int) :
    blendermcp_port.default = 9876 ∧
    (portConfigurable v = true ↔ 1024 ≤ v ∧ v ≤ 65535) := by
  refine ⟨rfl, ?_⟩
  unfold portConfigurable blendermcp_port
  simp [Bool.and_eq_true, decide_eq_true_iff]

/-- Claim C9, amended, witness at the default port. -/
theorem c9_amended_port_bounds_witness :
    portConfigurable 9876 = true ∧ blendermcp_port.default = 9876 :=
  ⟨(c9_amended_port_bounds 9876).2.mpr (by constructor <;> decide),
   (c9_amended_port_bounds 9876).1⟩

/-- Claim C10: execute_command is total over arbitrary command mappings -
its result always carries status "success" or "error" (every exception is
caught by its except-clause); a missing "params" key behaves exactly as an
empty parameter mapping; and a missing "type" key produces the error
envelope with message "Unknown command: None". -/
theorem c10_execute_command_total (impl : HandlerImpl)
    (d : List (String × JVal)) :
    (statusOf (execute_command impl (JVal.obj d)) = some (JVal.str "success") ∨
     statusOf (execute_command impl (JVal.obj d)) = some (JVal.str "error")) ∧
    (dget d "type" = none →
      execute_command impl (JVal.obj d) =
        errorResponse "Unknown command: None") ∧
    (dget d "params" = none →
      execute_command impl (JVal.obj d) =
        execute_command impl (JVal.obj (d ++ [("params", JVal.obj [])]))) := by
  refine ⟨execute_command_status impl (JVal.obj d), ?_, ?_⟩
  · intro ht
    unfold execute_command execute_command_try
    dsimp only
    rw [ht]
    rfl
  · intro hp
    unfold execute_command execute_command_try
    dsimp only
    rw [hp, dget_append_none d [("params", JVal.obj [])] "params" hp]
    cases ht : dget d "type" with
    | none => rw [dget_append_none d _ "type" ht]; rfl
    | some v => rw [dget_append_some d _ "type" v ht]; rfl

/-- Claim C10, witness at a command mapping with no "type" key. -/
theorem c10_execute_command_total_witness :
    execute_command implNull (JVal.obj [("params", JVal.obj [])]) =
      errorResponse "Unknown command: None" :=
  (c10_execute_command_total implNull [("params", JVal.obj [])]).2.1 rfl

end BlenderMCP
